import Mathlib

/-!
Verification development for the authentication API (sign-in, authorize,
refresh, sign-out routes of the Express application, the TypeScript
AuthorizeController, and the User utility class).

The handlers are embedded as pure functions from the request inputs and an
explicit environment (the outcomes the external stores and the signature
verifier would produce for each key) to a response, an updated session-cache
view, and a trace of the external operations performed, in program order.
External collaborators whose sources are not part of the repository snapshot
(the Redis cache manager, the token issuer, the cookie validator, the user
fetchers) are represented by outcome-valued environment fields, or, where the
claims need their behavior, by definitions modelled from the specification
and marked as such.
-/

/-- Access type carried in a token payload: the value "USER" or "SYSTEM". -/
inductive AccessType
  | USER
  | SYSTEM
deriving DecidableEq, Repr

/-- The authenticated_user object embedded in an access-token payload. -/
structure AuthUser where
  id : Nat
  access_level : Nat
deriving DecidableEq, Repr

/-- The access-token payload without timestamps: access_type plus
authenticated_user, exactly the fields the handlers send back after
destructuring away exp and iat. -/
structure Payload where
  access_type : AccessType
  authenticated_user : AuthUser
deriving DecidableEq, Repr

/-- A decoded access token as stored in the session cache and as produced by
signature verification: the payload together with the iat and exp numeric
timestamps. -/
structure CacheVal where
  payload : Payload
  iat : Int
  exp : Int
deriving DecidableEq, Repr

/-- Outcome of a getKey call against a Redis-backed store: a transport fault
(cacheError set), a present value (cachedVal set), or an absent key. -/
inductive GetOutcome (α : Type)
  | fault
  | found (v : α)
  | absent
deriving DecidableEq, Repr

/-- Outcome of jwt.verify on a token string: TokenExpiredError, any other
verification error, or success with the decoded token. -/
inductive VerifyOutcome
  | expired
  | invalid
  | ok (decoded : CacheVal)
deriving DecidableEq, Repr

/-- An error outcome of validateRefreshTokenCookie, carrying the status and
error code the handler forwards verbatim. -/
structure CookieErr where
  status : Nat
  code : String
deriving DecidableEq, Repr

/-- Effect of a handler on the refresh-token cookie. -/
inductive CookieEffect
  | untouched
  | cleared
  | set (value : String)
deriving DecidableEq, Repr

/-- Body of a handler response: an error_code object, a bare payload (claims
without timestamps), an access_token plus payload, or plain text. -/
inductive RespBody
  | errorCode (code : String)
  | claims (p : Payload)
  | tokenAndClaims (token : String) (p : Payload)
  | text (s : String)
deriving DecidableEq, Repr

/-- A handler response: HTTP status, body, and the cookie effect. -/
structure Response where
  status : Nat
  body : RespBody
  cookie : CookieEffect
deriving DecidableEq, Repr

/-- External operations a handler performs, recorded in program order. -/
inductive Event
  | blacklistGet
  | cacheGet
  | cacheDelete
  | cacheSet (key : String) (ttl : Int)
  | jwtVerify
  | cookieCheck
  | ledgerFind
  | ledgerCreate
  | userFetch
  | issueTokens
  | blacklistSet (key : String) (ttl : Int)
deriving DecidableEq, Repr

/-- Environment of the authorize route: outcome of the blacklist getKey, of
the session-cache getKey, of jwt.verify, of validateRefreshTokenCookie (none
means the cookie linkage validated or was repaired), and whether the
session-cache setKey succeeds. -/
structure AuthorizeState where
  blacklist : String → GetOutcome Unit
  cache : String → GetOutcome CacheVal
  jwtVerify : String → VerifyOutcome
  cookieCheck : Option CookieErr
  cacheSetOk : Bool

/-- Result of a run of the authorize route: the response, the session-cache
view after the run (deleteKey and setKey applied), and the operation trace. -/
structure HandlerOut where
  resp : Response
  cache : String → GetOutcome CacheVal
  trace : List Event

/-- The authorize route of the Express application, embedded line by line:
missing-token check, blacklist getKey (fault gives 500, hit clears the cookie
and gives 401 TOKEN INVALID), session-cache getKey (on a hit, a token whose
first three characters are SYS has its entry deleted and its payload returned
with exp and iat destructured away, otherwise validateRefreshTokenCookie runs
and the payload is returned on success; a cache fault gives 500), and the
fallback jwt.verify (TokenExpiredError gives 401 TOKEN EXPIRED with the
cookie untouched, any other error clears the cookie and gives 401 TOKEN
INVALID, success runs the cookie check then setKey with ttl equal to
exp - iat of the decoded token before returning the payload). -/
def authorize : Option String → AuthorizeState → HandlerOut
  | none, s =>
      ⟨⟨400, .errorCode "MISSING AUTHORIZATION BEARER TOKEN", .untouched⟩, s.cache, []⟩
  | some t, s =>
      if t.isEmpty then
        ⟨⟨400, .errorCode "MISSING AUTHORIZATION BEARER TOKEN", .untouched⟩, s.cache, []⟩
      else
        match s.blacklist t with
        | .fault =>
            ⟨⟨500, .errorCode "PROBLEM CHECKING BLACKLIST CACHE", .untouched⟩, s.cache,
              [.blacklistGet]⟩
        | .found _ =>
            ⟨⟨401, .errorCode "TOKEN INVALID", .cleared⟩, s.cache, [.blacklistGet]⟩
        | .absent =>
            match s.cache t with
            | .found v =>
                if t.take 3 = "SYS" then
                  ⟨⟨200, .claims v.payload, .untouched⟩,
                    Function.update s.cache t .absent,
                    [.blacklistGet, .cacheGet, .cacheDelete]⟩
                else
                  match s.cookieCheck with
                  | some e =>
                      ⟨⟨e.status, .errorCode e.code, .untouched⟩, s.cache,
                        [.blacklistGet, .cacheGet, .cookieCheck]⟩
                  | none =>
                      ⟨⟨200, .claims v.payload, .untouched⟩, s.cache,
                        [.blacklistGet, .cacheGet, .cookieCheck]⟩
            | .fault =>
                ⟨⟨500, .errorCode "PROBLEM READING CACHE", .untouched⟩, s.cache,
                  [.blacklistGet, .cacheGet]⟩
            | .absent =>
                match s.jwtVerify t with
                | .expired =>
                    ⟨⟨401, .errorCode "TOKEN EXPIRED", .untouched⟩, s.cache,
                      [.blacklistGet, .cacheGet, .jwtVerify]⟩
                | .invalid =>
                    ⟨⟨401, .errorCode "TOKEN INVALID", .cleared⟩, s.cache,
                      [.blacklistGet, .cacheGet, .jwtVerify]⟩
                | .ok d =>
                    match s.cookieCheck with
                    | some e =>
                        ⟨⟨e.status, .errorCode e.code, .untouched⟩, s.cache,
                          [.blacklistGet, .cacheGet, .jwtVerify, .cookieCheck]⟩
                    | none =>
                        if s.cacheSetOk then
                          ⟨⟨200, .claims d.payload, .untouched⟩,
                            Function.update s.cache t (.found d),
                            [.blacklistGet, .cacheGet, .jwtVerify, .cookieCheck,
                              .cacheSet t (d.exp - d.iat)]⟩
                        else
                          ⟨⟨500, .errorCode "PROBLEM STORING CREDENTIALS", .untouched⟩,
                            s.cache,
                            [.blacklistGet, .cacheGet, .jwtVerify, .cookieCheck,
                              .cacheSet t (d.exp - d.iat)]⟩

/-- A user record as read from the store: the fields the handlers use. -/
structure UserRec where
  id : Nat
  email : String
  password : String
  access_level : Nat
deriving DecidableEq, Repr

/-- An error outcome of fetchUserByEmail or fetchUserById, carrying the
status and error_code the handler forwards. -/
structure FetchErr where
  status : Nat
  code : String
deriving DecidableEq, Repr

/-- Outcome of fetchUserByEmail: an error object, a null user, or a user. -/
inductive UserFetchOutcome
  | err (e : FetchErr)
  | notFound
  | found (u : UserRec)
deriving DecidableEq, Repr

/-- Outcome of fetchUserById in the refresh route: an error object or a
user. -/
inductive UserByIdOutcome
  | err (e : FetchErr)
  | found (u : UserRec)
deriving DecidableEq, Repr

/-- One token of an issued pair: the token string, the embedded payload, and
the iat and exp timestamps. -/
structure TokenData where
  token : String
  payload : Payload
  iat : Int
  exp : Int
deriving DecidableEq, Repr

/-- An issued access/refresh token pair. -/
structure TokenPair where
  accessToken : TokenData
  refreshToken : TokenData
deriving DecidableEq, Repr

/-- Modelled from the spec: generateUserTokens of utils/tokens is not in the
repository snapshot; per the Token Issuer description it computes iat as the
current time, exp as iat plus the requested lifetime, and embeds the USER
payload built from the user record (the payload shape matches the comment in
the sign-in route). The token strings are abstract identifiers. -/
def generateUserTokens (u : UserRec) (now accessTokenExpiresIn refreshTokenExpiresIn : Int) :
    TokenPair :=
  { accessToken :=
      { token := "ACCESS." ++ toString u.id ++ "." ++ toString now
        payload := { access_type := .USER, authenticated_user := ⟨u.id, u.access_level⟩ }
        iat := now
        exp := now + accessTokenExpiresIn }
    refreshToken :=
      { token := "REFRESH." ++ toString u.id ++ "." ++ toString now
        payload := { access_type := .USER, authenticated_user := ⟨u.id, u.access_level⟩ }
        iat := now
        exp := now + refreshTokenExpiresIn } }

/-- Environment of the sign-in route: outcome of fetchUserByEmail, the
password verifier (submitted password against the stored hash, an external
primitive represented by its boolean outcome), and whether the ledger create
and the session-cache setKey succeed. -/
structure SignInState where
  fetchUserByEmail : String → UserFetchOutcome
  verifyUserPassword : String → String → Bool
  ledgerCreateOk : Bool
  cacheSetOk : Bool

/-- The sign-in route of the Express application: missing email or password
gives 400; a fetch error forwards its status and code; a null user or a
failed password check both give 401 with the same error_code; then tokens
are issued (1 hour access, 1 week refresh), a ledger entry is created (500
on failure), the access token payload plus exp and iat is cached under the
token with ttl equal to exp - iat (500 on failure), the refresh cookie is
set, and the access token plus payload is returned. -/
def signIn (email password : Option String) (now : Int) (s : SignInState) :
    Response × List Event :=
  match email, password with
  | none, _ => (⟨400, .errorCode "MISSING EMAIL OR PASSWORD", .untouched⟩, [])
  | _, none => (⟨400, .errorCode "MISSING EMAIL OR PASSWORD", .untouched⟩, [])
  | some e, some p =>
      if e.isEmpty ∨ p.isEmpty then
        (⟨400, .errorCode "MISSING EMAIL OR PASSWORD", .untouched⟩, [])
      else
        match s.fetchUserByEmail e with
        | .err fe => (⟨fe.status, .errorCode fe.code, .untouched⟩, [.userFetch])
        | .notFound =>
            (⟨401, .errorCode "EMAIL/PASSWORD COMBINATION NOT RECOGNIZED", .untouched⟩,
              [.userFetch])
        | .found u =>
            if s.verifyUserPassword p u.password = false then
              (⟨401, .errorCode "EMAIL/PASSWORD COMBINATION NOT RECOGNIZED", .untouched⟩,
                [.userFetch])
            else
              let pair := generateUserTokens u now (60 * 60) (60 * 60 * 24 * 7)
              if s.ledgerCreateOk = false then
                (⟨500, .errorCode "PROBLEM STORING CREDENTIALS", .untouched⟩,
                  [.userFetch, .issueTokens, .ledgerCreate])
              else if s.cacheSetOk = false then
                (⟨500, .errorCode "PROBLEM STORING CREDENTIALS", .untouched⟩,
                  [.userFetch, .issueTokens, .ledgerCreate,
                    .cacheSet pair.accessToken.token
                      (pair.accessToken.exp - pair.accessToken.iat)])
              else
                (⟨200, .tokenAndClaims pair.accessToken.token pair.accessToken.payload,
                    .set pair.refreshToken.token⟩,
                  [.userFetch, .issueTokens, .ledgerCreate,
                    .cacheSet pair.accessToken.token
                      (pair.accessToken.exp - pair.accessToken.iat)])

/-- Outcome of the TokenStore.findOne pairing lookup: a thrown error, a null
record, or the matching ledger entry (the handler only uses user_id). -/
inductive FindOutcome
  | fault
  | notFound
  | found (user_id : Nat)
deriving DecidableEq, Repr

/-- Environment of the refresh route: outcome of the blacklist getKey, of the
ledger pairing lookup keyed by the exact access and refresh token strings, of
fetchUserById, and whether the ledger create and session-cache setKey
succeed. -/
structure RefreshState where
  blacklist : String → GetOutcome Unit
  ledger : String → String → FindOutcome
  fetchUserById : Nat → UserByIdOutcome
  ledgerCreateOk : Bool
  cacheSetOk : Bool

/-- The refresh route of the Express application: missing bearer token gives
400; blacklist getKey (fault gives 500, hit clears the cookie and gives 401
TOKEN INVALID); a missing refresh cookie gives 401 REFRESH TOKEN INVALID;
the ledger pairing lookup (throw gives 500, null clears the cookie and gives
401); fetchUserById forwards its error; then a new pair is issued, a ledger
entry created (500 on failure), the new access token cached with ttl equal
to exp - iat (500 on failure), the new refresh cookie set, and the new
access token plus payload returned. -/
def refresh (tok cookie : Option String) (now : Int) (s : RefreshState) :
    Response × List Event :=
  match tok with
  | none => (⟨400, .errorCode "MISSING AUTHORIZATION BEARER TOKEN", .untouched⟩, [])
  | some t =>
      if t.isEmpty then
        (⟨400, .errorCode "MISSING AUTHORIZATION BEARER TOKEN", .untouched⟩, [])
      else
        match s.blacklist t with
        | .fault =>
            (⟨500, .errorCode "PROBLEM CHECKING BLACKLIST CACHE", .untouched⟩,
              [.blacklistGet])
        | .found _ =>
            (⟨401, .errorCode "TOKEN INVALID", .cleared⟩, [.blacklistGet])
        | .absent =>
            match cookie with
            | none =>
                (⟨401, .errorCode "REFRESH TOKEN INVALID", .untouched⟩, [.blacklistGet])
            | some rt =>
                if rt.isEmpty then
                  (⟨401, .errorCode "REFRESH TOKEN INVALID", .untouched⟩, [.blacklistGet])
                else
                  match s.ledger t rt with
                  | .fault =>
                      (⟨500, .errorCode "PROBLEM RETRIEVING TOKEN RECORD", .untouched⟩,
                        [.blacklistGet, .ledgerFind])
                  | .notFound =>
                      (⟨401, .errorCode "NO RECORD OF CURRENT TOKEN PAIRING EXISTS",
                          .cleared⟩,
                        [.blacklistGet, .ledgerFind])
                  | .found uid =>
                      match s.fetchUserById uid with
                      | .err fe =>
                          (⟨fe.status, .errorCode fe.code, .untouched⟩,
                            [.blacklistGet, .ledgerFind, .userFetch])
                      | .found u =>
                          let pair := generateUserTokens u now (60 * 60) (60 * 60 * 24 * 7)
                          if s.ledgerCreateOk = false then
                            (⟨500, .errorCode "PROBLEM STORING CREDENTIALS", .untouched⟩,
                              [.blacklistGet, .ledgerFind, .userFetch, .issueTokens,
                                .ledgerCreate])
                          else if s.cacheSetOk = false then
                            (⟨500, .errorCode "PROBLEM STORING CREDENTIALS", .untouched⟩,
                              [.blacklistGet, .ledgerFind, .userFetch, .issueTokens,
                                .ledgerCreate,
                                .cacheSet pair.accessToken.token
                                  (pair.accessToken.exp - pair.accessToken.iat)])
                          else
                            (⟨200,
                                .tokenAndClaims pair.accessToken.token
                                  pair.accessToken.payload,
                                .set pair.refreshToken.token⟩,
                              [.blacklistGet, .ledgerFind, .userFetch, .issueTokens,
                                .ledgerCreate,
                                .cacheSet pair.accessToken.token
                                  (pair.accessToken.exp - pair.accessToken.iat)])

/-- Environment of the sign-out route: outcome of the blacklist getKey, of
jwt.verify, and whether the blacklist setKey succeeds. -/
structure SignOutState where
  blacklist : String → GetOutcome Unit
  jwtVerify : String → VerifyOutcome
  blacklistSetOk : Bool

/-- The sign-out route of the Express application: missing bearer token gives
400; a blacklist getKey fault is only logged and the handler falls through
with no cached value; a blacklist hit gives 400 TOKEN ALREADY BLACKLISTED;
any jwt.verify error gives 400 TOKEN ALREADY INVALID; on success the token
is written to the blacklist with ttl equal to exp - iat of the decoded token
(500-style failure response on a setKey error) and SUCCESS is returned. -/
def signOut (tok : Option String) (s : SignOutState) : Response × List Event :=
  match tok with
  | none => (⟨400, .errorCode "MISSING AUTHORIZATION BEARER TOKEN", .untouched⟩, [])
  | some t =>
      if t.isEmpty then
        (⟨400, .errorCode "MISSING AUTHORIZATION BEARER TOKEN", .untouched⟩, [])
      else
        match s.blacklist t with
        | .found _ =>
            (⟨400, .errorCode "TOKEN ALREADY BLACKLISTED", .untouched⟩, [.blacklistGet])
        | _ =>
            match s.jwtVerify t with
            | .expired =>
                (⟨400, .errorCode "TOKEN ALREADY INVALID", .untouched⟩,
                  [.blacklistGet, .jwtVerify])
            | .invalid =>
                (⟨400, .errorCode "TOKEN ALREADY INVALID", .untouched⟩,
                  [.blacklistGet, .jwtVerify])
            | .ok d =>
                if s.blacklistSetOk then
                  (⟨200, .text "SUCCESS", .untouched⟩,
                    [.blacklistGet, .jwtVerify, .blacklistSet t (d.exp - d.iat)])
                else
                  (⟨500, .errorCode "PROBLEM BLACKLISTING TOKEN", .untouched⟩,
                    [.blacklistGet, .jwtVerify, .blacklistSet t (d.exp - d.iat)])

/-- Environment of the TypeScript AuthorizeController: the boolean outcome of
tokenBlacklist.isBlacklisted, the cached payload returned by
authTokenCache.getCachedPayload, and the jwt.verify outcome. -/
structure TSAuthorizeState where
  isBlacklisted : String → Bool
  cachedPayload : String → Option Payload
  jwtVerify : String → VerifyOutcome

/-- The executeImpl method of AuthorizeController: missing token rejects, a
blacklisted token rejects as invalid, a cached payload is returned
immediately, and otherwise jwt.verify runs; an expiry error rejects as
expired, any other error as invalid, and on success the payload without exp
and iat is cached with ttl equal to exp - iat and returned. The response
helpers of BaseController are not in the snapshot; modelled from the spec,
rejection as invalid clears the refresh cookie and rejection as expired
leaves it untouched. -/
def executeImpl (tok : Option String) (s : TSAuthorizeState) : Response × List Event :=
  match tok with
  | none => (⟨400, .errorCode "MISSING AUTHORIZATION BEARER TOKEN", .untouched⟩, [])
  | some t =>
      if t.isEmpty then
        (⟨400, .errorCode "MISSING AUTHORIZATION BEARER TOKEN", .untouched⟩, [])
      else if s.isBlacklisted t then
        (⟨401, .errorCode "TOKEN INVALID", .cleared⟩, [.blacklistGet])
      else
        match s.cachedPayload t with
        | some p => (⟨200, .claims p, .untouched⟩, [.blacklistGet, .cacheGet])
        | none =>
            match s.jwtVerify t with
            | .expired =>
                (⟨401, .errorCode "TOKEN EXPIRED", .untouched⟩,
                  [.blacklistGet, .cacheGet, .jwtVerify])
            | .invalid =>
                (⟨401, .errorCode "TOKEN INVALID", .cleared⟩,
                  [.blacklistGet, .cacheGet, .jwtVerify])
            | .ok d =>
                (⟨200, .claims d.payload, .untouched⟩,
                  [.blacklistGet, .cacheGet, .jwtVerify,
                    .cacheSet t (d.exp - d.iat)])

/-- Modelled from the spec: the TTL semantics of the Redis-backed stores (the
RedisCacheManager source is not in the snapshot); a key set at absolute time
setTime with a ttl of ttl seconds is retrievable at query time q exactly when
setTime is not after q and q is before setTime plus ttl, matching the
contract that a value cached with TTL T is no longer retrievable after T
seconds elapse. -/
def retrievableAt (setTime ttl q : Int) : Prop :=
  setTime ≤ q ∧ q < setTime + ttl

instance (setTime ttl q : Int) : Decidable (retrievableAt setTime ttl q) := by
  unfold retrievableAt
  infer_instance

/-- A stored user record for the User utility class. -/
structure UserRecord where
  id : Nat
  email : String
  password : String
  email_confirmed : Bool
deriving DecidableEq, Repr

/-- Modelled from the spec: createUserTokenData of utils/tokens is not in the
snapshot; it mints a token-data pair from a user record. Only the fact that
it is invoked behind the initialization guard matters here. -/
def createUserTokenData (u : UserRecord) : TokenPair :=
  generateUserTokens ⟨u.id, u.email, u.password, 0⟩ 0 (60 * 60) (60 * 60 * 24 * 7)

/-- Modelled from the spec: isPasswordValid of utils/users is not in the
snapshot; it is the external constant-time comparison of a stored hash
against a submitted password, represented by string equality. Only the fact
that it is invoked behind the initialization guard matters here. -/
def isPasswordValid (stored submitted : String) : Bool :=
  stored = submitted

/-- The private _user field of the User class: null until an init method
stores a fetched record. -/
def UserState : Type := Option UserRecord

/-- The constructor of the User class sets _user to null. -/
def UserState.new : UserState := none

/-- The exists method of the User class: whether _user is not null. -/
def UserState.existsUser : UserState → Bool
  | none => false
  | some _ => true

/-- The initByEmail and initByID methods store the fetched record in _user;
the fetch itself is external, so the record is a parameter. -/
def UserState.init (u : UserRecord) : UserState → UserState :=
  fun _ => some u

/-- The hasPassword method: throws NO USER INITIALIZED when no user is
initialized, otherwise returns isPasswordValid on the stored password. -/
def UserState.hasPassword (s : UserState) (password : String) : Except String Bool :=
  match s with
  | none => .error "NO USER INITIALIZED"
  | some u => .ok (isPasswordValid u.password password)

/-- The confirmedEmail method: throws NO USER INITIALIZED when no user is
initialized, otherwise returns the email_confirmed field. -/
def UserState.confirmedEmail (s : UserState) : Except String Bool :=
  match s with
  | none => .error "NO USER INITIALIZED"
  | some u => .ok u.email_confirmed

/-- The getFields method: throws NO USER INITIALIZED when no user is
initialized, otherwise returns the record. -/
def UserState.getFields (s : UserState) : Except String UserRecord :=
  match s with
  | none => .error "NO USER INITIALIZED"
  | some u => .ok u

/-- The initUserTokens method: throws NO USER INITIALIZED when no user is
initialized, otherwise resolves createUserTokenData on the record. -/
def UserState.initUserTokens (s : UserState) : Except String TokenPair :=
  match s with
  | none => .error "NO USER INITIALIZED"
  | some u => .ok (createUserTokenData u)

/-- The access token issued by the sign-in and refresh routes: both call
generateUserTokens with a 1 hour access lifetime and a 1 week refresh
lifetime. -/
def issuedAccess (u : UserRec) (now : Int) : TokenData :=
  (generateUserTokens u now (60 * 60) (60 * 60 * 24 * 7)).accessToken

/-- A sample decoded access token used in concrete instantiations: USER
claims, iat 0, exp 10. -/
def exVal : CacheVal := ⟨⟨.USER, ⟨1, 2⟩⟩, 0, 10⟩

/-- A sample authorize environment whose blacklist reports every token as
revoked while the session cache holds a live entry and the signature is
valid. -/
def exBlacklistedAuth : AuthorizeState :=
  ⟨fun _ => .found (), fun _ => .found exVal, fun _ => .ok exVal, none, true⟩

/-- A sample refresh environment whose blacklist reports every token as
revoked while the ledger recognizes every pairing. -/
def exBlacklistedRefresh : RefreshState :=
  ⟨fun _ => .found (), fun _ _ => .found 1, fun i => .found ⟨i, "a@x.com", "h", 3⟩,
    true, true⟩

/-- A sample refresh environment with an empty blacklist and a ledger that
recognizes every pairing. -/
def exCleanRefresh : RefreshState :=
  ⟨fun _ => .absent, fun _ _ => .found 1, fun i => .found ⟨i, "a@x.com", "h", 3⟩,
    true, true⟩

/- ======================= claim theorems ======================= -/

/-- C1: for every authorize or refresh request carrying a blacklisted access
token, the request is rejected with 401 TOKEN INVALID (with the refresh
cookie cleared), whatever the session cache, the ledger, and the signature
verifier would have reported, and the operation trace consists of the
blacklist lookup alone, so the blacklist check happens before the
session-cache lookup and before any signature verification. -/
theorem blacklisted_rejected_first (t : String) (ht : t.isEmpty = false)
    (sa : AuthorizeState) (sr : RefreshState) (cookie : Option String) (now : Int)
    (ha : sa.blacklist t = .found ()) (hr : sr.blacklist t = .found ()) :
    (authorize (some t) sa).resp = ⟨401, .errorCode "TOKEN INVALID", .cleared⟩ ∧
    (authorize (some t) sa).trace = [.blacklistGet] ∧
    (refresh (some t) cookie now sr).1 = ⟨401, .errorCode "TOKEN INVALID", .cleared⟩ ∧
    (refresh (some t) cookie now sr).2 = [.blacklistGet] := by
  unfold authorize refresh
  simp [ht, ha, hr]

/-- Closed instance of blacklisted_rejected_first: the token is blacklisted
while also live in the cache and cryptographically valid, and both routes
still reject it after the blacklist lookup alone. -/
theorem blacklisted_rejected_first_witness :
    ("tok".isEmpty = false ∧
      exBlacklistedAuth.blacklist "tok" = .found () ∧
      exBlacklistedRefresh.blacklist "tok" = .found ()) ∧
    ((authorize (some "tok") exBlacklistedAuth).resp =
        ⟨401, .errorCode "TOKEN INVALID", .cleared⟩ ∧
      (authorize (some "tok") exBlacklistedAuth).trace = [.blacklistGet] ∧
      (refresh (some "tok") (some "rt") 0 exBlacklistedRefresh).1 =
        ⟨401, .errorCode "TOKEN INVALID", .cleared⟩ ∧
      (refresh (some "tok") (some "rt") 0 exBlacklistedRefresh).2 = [.blacklistGet]) :=
  ⟨by decide,
    blacklisted_rejected_first "tok" (by decide) exBlacklistedAuth exBlacklistedRefresh
      (some "rt") 0 (by decide) (by decide)⟩

/-- C5: a sign-in whose email matches no stored user and a sign-in whose
email matches a user but whose password fails the hash check produce the
identical response: status 401 with error_code EMAIL/PASSWORD COMBINATION
NOT RECOGNIZED, so a caller cannot distinguish the two failure causes. -/
theorem sign_in_uniform_rejection (e1 p1 e2 p2 : String) (now1 now2 : Int)
    (s1 s2 : SignInState) (u : UserRec)
    (he1 : e1.isEmpty = false) (hp1 : p1.isEmpty = false)
    (he2 : e2.isEmpty = false) (hp2 : p2.isEmpty = false)
    (h1 : s1.fetchUserByEmail e1 = .notFound)
    (h2 : s2.fetchUserByEmail e2 = .found u)
    (hpw : s2.verifyUserPassword p2 u.password = false) :
    (signIn (some e1) (some p1) now1 s1).1 = (signIn (some e2) (some p2) now2 s2).1 ∧
    (signIn (some e1) (some p1) now1 s1).1 =
      ⟨401, .errorCode "EMAIL/PASSWORD COMBINATION NOT RECOGNIZED", .untouched⟩ := by
  unfold signIn
  simp [he1, hp1, he2, hp2, h1, h2, hpw]

/-- Closed instance of sign_in_uniform_rejection: an unknown email and a
known email with a wrong password receive the same 401 response. -/
theorem sign_in_uniform_rejection_witness :
    ("a@x.com".isEmpty = false ∧ "p1".isEmpty = false ∧
      "b@x.com".isEmpty = false ∧ "p2".isEmpty = false ∧
      SignInState.fetchUserByEmail ⟨fun _ => .notFound, fun _ _ => true, true, true⟩
          "a@x.com" = .notFound ∧
      SignInState.fetchUserByEmail
          ⟨fun _ => .found ⟨1, "b@x.com", "hash", 3⟩, fun _ _ => false, true, true⟩
          "b@x.com" = .found ⟨1, "b@x.com", "hash", 3⟩ ∧
      SignInState.verifyUserPassword
          ⟨fun _ => .found ⟨1, "b@x.com", "hash", 3⟩, fun _ _ => false, true, true⟩
          "p2" "hash" = false) ∧
    ((signIn (some "a@x.com") (some "p1") 0
          ⟨fun _ => .notFound, fun _ _ => true, true, true⟩).1 =
        (signIn (some "b@x.com") (some "p2") 5
          ⟨fun _ => .found ⟨1, "b@x.com", "hash", 3⟩, fun _ _ => false, true, true⟩).1 ∧
      (signIn (some "a@x.com") (some "p1") 0
          ⟨fun _ => .notFound, fun _ _ => true, true, true⟩).1 =
        ⟨401, .errorCode "EMAIL/PASSWORD COMBINATION NOT RECOGNIZED", .untouched⟩) :=
  ⟨by decide,
    sign_in_uniform_rejection "a@x.com" "p1" "b@x.com" "p2" 0 5
      ⟨fun _ => .notFound, fun _ _ => true, true, true⟩
      ⟨fun _ => .found ⟨1, "b@x.com", "hash", 3⟩, fun _ _ => false, true, true⟩
      ⟨1, "b@x.com", "hash", 3⟩
      (by decide) (by decide) (by decide) (by decide) (by decide) (by decide)
      (by decide)⟩

/-- C7: in the refresh route a missing bearer token is answered 400 with an
empty operation trace, and a missing refresh cookie (on a non-blacklisted
token) is answered 401 REFRESH TOKEN INVALID with only the blacklist lookup
in the trace; both responses are in the 4xx client-error class and neither
run reaches the ledger pairing lookup or token issuance. -/
theorem refresh_missing_inputs (t : String) (ht : t.isEmpty = false)
    (cookie : Option String) (now now2 : Int) (s s2 : RefreshState)
    (hb : s2.blacklist t = .absent) :
    ((refresh none cookie now s).1.status = 400 ∧
      (refresh none cookie now s).2 = []) ∧
    ((refresh (some t) none now2 s2).1 =
        ⟨401, .errorCode "REFRESH TOKEN INVALID", .untouched⟩ ∧
      (refresh (some t) none now2 s2).2 = [.blacklistGet] ∧
      400 ≤ (refresh (some t) none now2 s2).1.status ∧
      (refresh (some t) none now2 s2).1.status < 500) := by
  unfold refresh
  simp [ht, hb]

/-- Closed instance of refresh_missing_inputs: a refresh with no bearer
token and a refresh with no cookie are both rejected locally. -/
theorem refresh_missing_inputs_witness :
    ("tok".isEmpty = false ∧ exCleanRefresh.blacklist "tok" = .absent) ∧
    (((refresh none (some "rt") 0 exCleanRefresh).1.status = 400 ∧
        (refresh none (some "rt") 0 exCleanRefresh).2 = []) ∧
      ((refresh (some "tok") none 0 exCleanRefresh).1 =
          ⟨401, .errorCode "REFRESH TOKEN INVALID", .untouched⟩ ∧
        (refresh (some "tok") none 0 exCleanRefresh).2 = [.blacklistGet] ∧
        400 ≤ (refresh (some "tok") none 0 exCleanRefresh).1.status ∧
        (refresh (some "tok") none 0 exCleanRefresh).1.status < 500)) :=
  ⟨by decide,
    refresh_missing_inputs "tok" (by decide) (some "rt") 0 0 exCleanRefresh
      exCleanRefresh (by decide)⟩

/-- C8: on the authorize fallback path a verification failure with the
expiry error is answered 401 TOKEN EXPIRED with the refresh cookie left
untouched, while any other verification failure is answered 401 TOKEN
INVALID with the refresh cookie cleared. -/
theorem fallback_expired_vs_invalid (t : String) (ht : t.isEmpty = false)
    (s s' : AuthorizeState)
    (hb : s.blacklist t = .absent) (hc : s.cache t = .absent)
    (hb' : s'.blacklist t = .absent) (hc' : s'.cache t = .absent)
    (hv : s.jwtVerify t = .expired) (hv' : s'.jwtVerify t = .invalid) :
    (authorize (some t) s).resp = ⟨401, .errorCode "TOKEN EXPIRED", .untouched⟩ ∧
    (authorize (some t) s').resp = ⟨401, .errorCode "TOKEN INVALID", .cleared⟩ := by
  unfold authorize
  simp [ht, hb, hc, hb', hc', hv, hv']

/-- Closed instance of fallback_expired_vs_invalid at two concrete
environments, one with an expired signature and one with an invalid one. -/
theorem fallback_expired_vs_invalid_witness :
    ("tok".isEmpty = false ∧
      AuthorizeState.blacklist
          ⟨fun _ => .absent, fun _ => .absent, fun _ => .expired, none, true⟩ "tok" =
        .absent ∧
      AuthorizeState.cache
          ⟨fun _ => .absent, fun _ => .absent, fun _ => .expired, none, true⟩ "tok" =
        .absent ∧
      AuthorizeState.jwtVerify
          ⟨fun _ => .absent, fun _ => .absent, fun _ => .expired, none, true⟩ "tok" =
        .expired ∧
      AuthorizeState.jwtVerify
          ⟨fun _ => .absent, fun _ => .absent, fun _ => .invalid, none, true⟩ "tok" =
        .invalid) ∧
    ((authorize (some "tok")
          ⟨fun _ => .absent, fun _ => .absent, fun _ => .expired, none, true⟩).resp =
        ⟨401, .errorCode "TOKEN EXPIRED", .untouched⟩ ∧
      (authorize (some "tok")
          ⟨fun _ => .absent, fun _ => .absent, fun _ => .invalid, none, true⟩).resp =
        ⟨401, .errorCode "TOKEN INVALID", .cleared⟩) :=
  ⟨by decide,
    fallback_expired_vs_invalid "tok" (by decide)
      ⟨fun _ => .absent, fun _ => .absent, fun _ => .expired, none, true⟩
      ⟨fun _ => .absent, fun _ => .absent, fun _ => .invalid, none, true⟩
      (by decide) (by decide) (by decide) (by decide) (by decide) (by decide)⟩

/-- C10: a freshly constructed User has no initialized record, and whenever
no record is initialized each of hasPassword, confirmedEmail, getFields and
initUserTokens throws NO USER INITIALIZED instead of returning a value. -/
theorem user_guards_uninitialized (s : UserState) (pw : String)
    (h : UserState.existsUser s = false) :
    UserState.existsUser UserState.new = false ∧
    UserState.hasPassword s pw = .error "NO USER INITIALIZED" ∧
    UserState.confirmedEmail s = .error "NO USER INITIALIZED" ∧
    UserState.getFields s = .error "NO USER INITIALIZED" ∧
    UserState.initUserTokens s = .error "NO USER INITIALIZED" := by
  cases s with
  | none =>
      exact ⟨rfl, rfl, rfl, rfl, rfl⟩
  | some u =>
      exact absurd h (by simp [UserState.existsUser])

/-- Closed instance of user_guards_uninitialized at the freshly constructed
User. -/
theorem user_guards_uninitialized_witness :
    (UserState.existsUser UserState.new = false) ∧
    (UserState.existsUser UserState.new = false ∧
      UserState.hasPassword UserState.new "pw" = .error "NO USER INITIALIZED" ∧
      UserState.confirmedEmail UserState.new = .error "NO USER INITIALIZED" ∧
      UserState.getFields UserState.new = .error "NO USER INITIALIZED" ∧
      UserState.initUserTokens UserState.new = .error "NO USER INITIALIZED") :=
  ⟨rfl, user_guards_uninitialized UserState.new "pw" rfl⟩

/-- A sample authorize environment with an empty blacklist, an empty cache,
and a valid signature decoding to exVal. -/
def exCleanAuth : AuthorizeState :=
  ⟨fun _ => .absent, fun _ => .absent, fun _ => .ok exVal, none, true⟩

/-- A sample TypeScript controller environment with nothing blacklisted,
nothing cached, and a valid signature decoding to exVal. -/
def exTS : TSAuthorizeState :=
  ⟨fun _ => false, fun _ => none, fun _ => .ok exVal⟩

/-- A sample stored user. -/
def exUser : UserRec := ⟨1, "a@x.com", "h", 3⟩

/-- A sample sign-in environment that finds exUser under any email and
accepts any password. -/
def exSignIn : SignInState :=
  ⟨fun _ => .found exUser, fun _ _ => true, true, true⟩

/-- C2 counterexample: the authorize fallback path caches the token with
ttl equal to exp minus iat of the decoded token (here 10), so under the TTL
store semantics an entry written at wall-clock time 5, after iat 0, is still
retrievable at time 12, which is after the token exp of 10, refuting the
stated bound that a fallback-cached token is never retrievable after exp. -/
theorem fallback_cache_outlives_exp :
    Event.cacheSet "tok" 10 ∈ (authorize (some "tok") exCleanAuth).trace ∧
    exVal.iat < 5 ∧ retrievableAt 5 10 12 ∧ exVal.exp < 12 := by
  decide

/-- C2 amended: every session-cache write (sign-in, refresh, authorize
fallback, and the TypeScript controller fallback) uses ttl equal to exp
minus iat of the written token; an entry written at the issuance instant
(sign-in and refresh write at the same now used as iat) is retrievable only
strictly before exp, but an entry written by fallback verification at any
wall-clock time tc after iat is still retrievable at an instant no earlier
than exp. -/
theorem cache_ttl_full_lifespan (t : String) (ht : t.isEmpty = false)
    (sa : AuthorizeState) (d : CacheVal)
    (hb : sa.blacklist t = .absent) (hc : sa.cache t = .absent)
    (hv : sa.jwtVerify t = .ok d) (hck : sa.cookieCheck = none)
    (hst : sa.cacheSetOk = true)
    (ts : TSAuthorizeState) (htb : ts.isBlacklisted t = false)
    (htc : ts.cachedPayload t = none) (htv : ts.jwtVerify t = .ok d)
    (e p : String) (he : e.isEmpty = false) (hp : p.isEmpty = false)
    (si : SignInState) (u : UserRec) (now : Int)
    (hf : si.fetchUserByEmail e = .found u)
    (hpw : si.verifyUserPassword p u.password = true)
    (hl : si.ledgerCreateOk = true) (hcs : si.cacheSetOk = true)
    (rt : String) (hrt : rt.isEmpty = false) (sr : RefreshState) (now2 : Int)
    (hrb : sr.blacklist t = .absent) (uid : Nat) (hrl : sr.ledger t rt = .found uid)
    (hru : sr.fetchUserById uid = .found u) (hrlc : sr.ledgerCreateOk = true)
    (hrcs : sr.cacheSetOk = true) :
    (authorize (some t) sa).trace =
      [.blacklistGet, .cacheGet, .jwtVerify, .cookieCheck,
        .cacheSet t (d.exp - d.iat)] ∧
    (executeImpl (some t) ts).2 =
      [.blacklistGet, .cacheGet, .jwtVerify, .cacheSet t (d.exp - d.iat)] ∧
    (signIn (some e) (some p) now si).2 =
      [.userFetch, .issueTokens, .ledgerCreate,
        .cacheSet (issuedAccess u now).token
          ((issuedAccess u now).exp - (issuedAccess u now).iat)] ∧
    (refresh (some t) (some rt) now2 sr).2 =
      [.blacklistGet, .ledgerFind, .userFetch, .issueTokens, .ledgerCreate,
        .cacheSet (issuedAccess u now2).token
          ((issuedAccess u now2).exp - (issuedAccess u now2).iat)] ∧
    (issuedAccess u now).iat = now ∧
    (issuedAccess u now).exp - (issuedAccess u now).iat = 60 * 60 ∧
    (∀ q, retrievableAt (issuedAccess u now).iat
        ((issuedAccess u now).exp - (issuedAccess u now).iat) q →
      q < (issuedAccess u now).exp) ∧
    (∀ tc, d.iat < tc → d.iat < d.exp →
      retrievableAt tc (d.exp - d.iat) (tc + (d.exp - d.iat) - 1) ∧
      d.exp ≤ tc + (d.exp - d.iat) - 1) := by
  refine ⟨?_, ?_, ?_, ?_, ?_, ?_, ?_, ?_⟩
  · unfold authorize
    simp [ht, hb, hc, hv, hck, hst]
  · unfold executeImpl
    simp [ht, htb, htc, htv]
  · unfold signIn
    simp [he, hp, hf, hpw, hl, hcs, issuedAccess]
  · unfold refresh
    simp [ht, hrt, hrb, hrl, hru, hrlc, hrcs, issuedAccess]
  · simp [issuedAccess, generateUserTokens]
  · simp [issuedAccess, generateUserTokens]
  · intro q hq
    unfold retrievableAt at hq
    simp [issuedAccess, generateUserTokens] at *
    omega
  · intro tc h1 h2
    unfold retrievableAt
    exact ⟨⟨by omega, by omega⟩, by omega⟩

/-- Closed instance of cache_ttl_full_lifespan, projected to the authorize
fallback trace. -/
theorem cache_ttl_full_lifespan_witness :
    ("tok".isEmpty = false ∧ exCleanAuth.blacklist "tok" = .absent ∧
      exCleanAuth.cache "tok" = .absent ∧ exCleanAuth.jwtVerify "tok" = .ok exVal ∧
      exCleanAuth.cookieCheck = none ∧ exCleanAuth.cacheSetOk = true ∧
      exTS.isBlacklisted "tok" = false ∧ exTS.cachedPayload "tok" = none ∧
      exTS.jwtVerify "tok" = .ok exVal ∧
      "a@x.com".isEmpty = false ∧ "p".isEmpty = false ∧
      exSignIn.fetchUserByEmail "a@x.com" = .found exUser ∧
      exSignIn.verifyUserPassword "p" exUser.password = true ∧
      exSignIn.ledgerCreateOk = true ∧ exSignIn.cacheSetOk = true ∧
      "rt".isEmpty = false ∧ exCleanRefresh.blacklist "tok" = .absent ∧
      exCleanRefresh.ledger "tok" "rt" = .found 1 ∧
      exCleanRefresh.fetchUserById 1 = .found exUser ∧
      exCleanRefresh.ledgerCreateOk = true ∧ exCleanRefresh.cacheSetOk = true) ∧
    (authorize (some "tok") exCleanAuth).trace =
      [.blacklistGet, .cacheGet, .jwtVerify, .cookieCheck,
        .cacheSet "tok" (exVal.exp - exVal.iat)] :=
  ⟨by decide,
    (cache_ttl_full_lifespan "tok" (by decide) exCleanAuth exVal (by decide)
      (by decide) (by decide) (by decide) (by decide) exTS (by decide) (by decide)
      (by decide) "a@x.com" "p" (by decide) (by decide) exSignIn exUser 0
      (by decide) (by decide) (by decide) (by decide) "rt" (by decide)
      exCleanRefresh 5 (by decide) 1 (by decide) (by decide) (by decide)
      (by decide)).1⟩

/-- A sample sign-out environment with an empty blacklist and a valid
signature decoding to exVal. -/
def exCleanSignOut : SignOutState :=
  ⟨fun _ => .absent, fun _ => .ok exVal, true⟩

/-- A sample sign-out environment whose blacklist lookup faults and whose
signature is valid. -/
def exFaultSignOut : SignOutState :=
  ⟨fun _ => .fault, fun _ => .ok exVal, true⟩

/-- C3 counterexample: signing out at wall-clock time 5 a token with iat 0
and exp 10, the handler writes the blacklist entry with ttl 10 (exp minus
iat), not the remaining 5 seconds; under the TTL store semantics the entry
is still retrievable at time 12, after the natural expiry 10, refuting both
the stated ttl and the stated un-blacklisting at natural expiry. -/
theorem sign_out_ttl_counterexample :
    (signOut (some "tok") exCleanSignOut).2 =
      [.blacklistGet, .jwtVerify, .blacklistSet "tok" 10] ∧
    (10 : Int) ≠ exVal.exp - 5 ∧
    retrievableAt 5 10 12 ∧ exVal.exp < 12 := by
  decide

/-- C3 amended: a successful sign-out writes the blacklist entry with ttl
equal to exp minus iat, the full token lifetime, independently of the
sign-out instant; an entry written at any wall-clock time tc after iat is
therefore still blacklisted at an instant no earlier than the natural exp. -/
theorem sign_out_blacklist_ttl (t : String) (ht : t.isEmpty = false)
    (s : SignOutState) (d : CacheVal) (hb : s.blacklist t = .absent)
    (hv : s.jwtVerify t = .ok d) (hset : s.blacklistSetOk = true) :
    (signOut (some t) s).1 = ⟨200, .text "SUCCESS", .untouched⟩ ∧
    (signOut (some t) s).2 =
      [.blacklistGet, .jwtVerify, .blacklistSet t (d.exp - d.iat)] ∧
    (∀ tc, d.iat < tc → d.iat < d.exp →
      retrievableAt tc (d.exp - d.iat) (tc + (d.exp - d.iat) - 1) ∧
      d.exp ≤ tc + (d.exp - d.iat) - 1) := by
  refine ⟨?_, ?_, ?_⟩
  · unfold signOut
    simp [ht, hb, hv, hset]
  · unfold signOut
    simp [ht, hb, hv, hset]
  · intro tc h1 h2
    unfold retrievableAt
    exact ⟨⟨by omega, by omega⟩, by omega⟩

/-- Closed instance of sign_out_blacklist_ttl, projected to the operation
trace with its ttl. -/
theorem sign_out_blacklist_ttl_witness :
    ("tok".isEmpty = false ∧ exCleanSignOut.blacklist "tok" = .absent ∧
      exCleanSignOut.jwtVerify "tok" = .ok exVal ∧
      exCleanSignOut.blacklistSetOk = true) ∧
    (signOut (some "tok") exCleanSignOut).2 =
      [.blacklistGet, .jwtVerify, .blacklistSet "tok" (exVal.exp - exVal.iat)] :=
  ⟨by decide,
    (sign_out_blacklist_ttl "tok" (by decide) exCleanSignOut exVal (by decide)
      (by decide) (by decide)).2.1⟩

/-- C4 counterexample: when the blacklist-store read faults, sign-out does
not answer 500 and stop; at this input it proceeds to signature verification
and blacklist insertion and answers 200 SUCCESS, refuting the claim that
every lookup fault is surfaced as fatal and stops the operation. -/
theorem sign_out_fault_counterexample :
    (signOut (some "tok") exFaultSignOut).1 = ⟨200, .text "SUCCESS", .untouched⟩ ∧
    Event.jwtVerify ∈ (signOut (some "tok") exFaultSignOut).2 ∧
    Event.blacklistSet "tok" 10 ∈ (signOut (some "tok") exFaultSignOut).2 ∧
    (signOut (some "tok") exFaultSignOut).1.status ≠ 500 := by
  decide

/-- C4 amended: authorize and refresh surface a blacklist-store read fault
as 500 with the blacklist lookup as the only operation, authorize surfaces a
session-cache read fault as 500, and refresh surfaces a ledger lookup fault
as 500; sign-out, however, only logs a blacklist-store read fault and
proceeds to signature verification and blacklist insertion as if the token
were not blacklisted. -/
theorem store_fault_surfacing (t : String) (ht : t.isEmpty = false)
    (sa sa2 : AuthorizeState) (sr sr2 : RefreshState) (so : SignOutState)
    (cookie : Option String) (now now2 : Int) (rt : String)
    (hrt : rt.isEmpty = false)
    (ha : sa.blacklist t = .fault)
    (ha2 : sa2.blacklist t = .absent) (hc2 : sa2.cache t = .fault)
    (hr : sr.blacklist t = .fault)
    (hr2 : sr2.blacklist t = .absent) (hl2 : sr2.ledger t rt = .fault)
    (hso : so.blacklist t = .fault) (d : CacheVal) (hv : so.jwtVerify t = .ok d)
    (hset : so.blacklistSetOk = true) :
    (authorize (some t) sa).resp =
      ⟨500, .errorCode "PROBLEM CHECKING BLACKLIST CACHE", .untouched⟩ ∧
    (authorize (some t) sa).trace = [.blacklistGet] ∧
    (authorize (some t) sa2).resp =
      ⟨500, .errorCode "PROBLEM READING CACHE", .untouched⟩ ∧
    (refresh (some t) cookie now sr).1 =
      ⟨500, .errorCode "PROBLEM CHECKING BLACKLIST CACHE", .untouched⟩ ∧
    (refresh (some t) cookie now sr).2 = [.blacklistGet] ∧
    (refresh (some t) (some rt) now2 sr2).1 =
      ⟨500, .errorCode "PROBLEM RETRIEVING TOKEN RECORD", .untouched⟩ ∧
    (signOut (some t) so).1 = ⟨200, .text "SUCCESS", .untouched⟩ ∧
    (signOut (some t) so).2 =
      [.blacklistGet, .jwtVerify, .blacklistSet t (d.exp - d.iat)] := by
  refine ⟨?_, ?_, ?_, ?_, ?_, ?_, ?_, ?_⟩
  · unfold authorize
    simp [ht, ha]
  · unfold authorize
    simp [ht, ha]
  · unfold authorize
    simp [ht, ha2, hc2]
  · unfold refresh
    simp [ht, hr]
  · unfold refresh
    simp [ht, hr]
  · unfold refresh
    simp [ht, hrt, hr2, hl2]
  · unfold signOut
    simp [ht, hso, hv, hset]
  · unfold signOut
    simp [ht, hso, hv, hset]

/-- A sample authorize environment whose blacklist lookup faults. -/
def exFaultAuth : AuthorizeState :=
  ⟨fun _ => .fault, fun _ => .absent, fun _ => .invalid, none, true⟩

/-- A sample authorize environment whose session-cache lookup faults. -/
def exCacheFaultAuth : AuthorizeState :=
  ⟨fun _ => .absent, fun _ => .fault, fun _ => .invalid, none, true⟩

/-- A sample refresh environment whose blacklist lookup faults. -/
def exFaultRefresh : RefreshState :=
  ⟨fun _ => .fault, fun _ _ => .notFound, fun _ => .err ⟨404, "USER NOT FOUND"⟩,
    true, true⟩

/-- A sample refresh environment whose ledger lookup faults. -/
def exLedgerFaultRefresh : RefreshState :=
  ⟨fun _ => .absent, fun _ _ => .fault, fun _ => .err ⟨404, "USER NOT FOUND"⟩,
    true, true⟩

/-- Closed instance of store_fault_surfacing, projected to the sign-out
continuation trace. -/
theorem store_fault_surfacing_witness :
    ("tok".isEmpty = false ∧ "rt".isEmpty = false ∧
      exFaultAuth.blacklist "tok" = .fault ∧
      exCacheFaultAuth.blacklist "tok" = .absent ∧
      exCacheFaultAuth.cache "tok" = .fault ∧
      exFaultRefresh.blacklist "tok" = .fault ∧
      exLedgerFaultRefresh.blacklist "tok" = .absent ∧
      exLedgerFaultRefresh.ledger "tok" "rt" = .fault ∧
      exFaultSignOut.blacklist "tok" = .fault ∧
      exFaultSignOut.jwtVerify "tok" = .ok exVal ∧
      exFaultSignOut.blacklistSetOk = true) ∧
    ((signOut (some "tok") exFaultSignOut).1 = ⟨200, .text "SUCCESS", .untouched⟩ ∧
      (signOut (some "tok") exFaultSignOut).2 =
        [.blacklistGet, .jwtVerify, .blacklistSet "tok" (exVal.exp - exVal.iat)]) :=
  ⟨by decide,
    ⟨(store_fault_surfacing "tok" (by decide) exFaultAuth exCacheFaultAuth
        exFaultRefresh exLedgerFaultRefresh exFaultSignOut (some "rt") 0 0 "rt"
        (by decide) (by decide) (by decide) (by decide) (by decide) (by decide)
        (by decide) (by decide) exVal (by decide) (by decide)).2.2.2.2.2.2.1,
      (store_fault_surfacing "tok" (by decide) exFaultAuth exCacheFaultAuth
        exFaultRefresh exLedgerFaultRefresh exFaultSignOut (some "rt") 0 0 "rt"
        (by decide) (by decide) (by decide) (by decide) (by decide) (by decide)
        (by decide) (by decide) exVal (by decide) (by decide)).2.2.2.2.2.2.2⟩⟩

/-- A sample authorize environment holding, under the key tok, a cached
value whose claims carry the SYSTEM access type, while the cookie check
would succeed. -/
def exSysClaims : AuthorizeState :=
  ⟨fun _ => .absent,
    fun k => if k = "tok" then .found ⟨⟨.SYSTEM, ⟨1, 2⟩⟩, 0, 10⟩ else .absent,
    fun _ => .invalid, none, true⟩

/-- A sample authorize environment holding, under the SYS-prefixed key
SYStok, a cached value whose claims carry the USER access type, while the
cookie check would fail with a 500. -/
def exSysName : AuthorizeState :=
  ⟨fun _ => .absent,
    fun k => if k = "SYStok" then .found ⟨⟨.USER, ⟨7, 3⟩⟩, 0, 10⟩ else .absent,
    fun _ => .invalid, some ⟨500, "COOKIE CHECK FAILED"⟩, true⟩

/-- C6 counterexample: a cache hit whose claims carry the SYSTEM access type
but whose token string does not start with SYS is not treated as one-time:
the refresh-cookie linkage check is performed, the cache entry is not
deleted, and it stays retrievable, because the route tests the token-string
prefix rather than the claims. -/
theorem system_claims_counterexample :
    (authorize (some "tok") exSysClaims).resp.status = 200 ∧
    Event.cookieCheck ∈ (authorize (some "tok") exSysClaims).trace ∧
    Event.cacheDelete ∉ (authorize (some "tok") exSysClaims).trace ∧
    (authorize (some "tok") exSysClaims).cache "tok" =
      .found ⟨⟨.SYSTEM, ⟨1, 2⟩⟩, 0, 10⟩ := by
  decide

/-- C6 amended: for every authorize cache hit on a token whose first three
characters are SYS (the route infers the SYSTEM kind from the token-string
prefix, not from the claims), the cache entry is deleted and the claims
are returned immediately with no refresh-cookie linkage check, and a second
authorize with the same token misses the cache and falls through to
signature verification. -/
theorem sys_cache_hit_one_time (t : String) (ht : t.isEmpty = false)
    (hsys : t.take 3 = "SYS") (s : AuthorizeState) (v : CacheVal)
    (hb : s.blacklist t = .absent) (hc : s.cache t = .found v) :
    (authorize (some t) s).resp = ⟨200, .claims v.payload, .untouched⟩ ∧
    (authorize (some t) s).trace = [.blacklistGet, .cacheGet, .cacheDelete] ∧
    Event.cookieCheck ∉ (authorize (some t) s).trace ∧
    (authorize (some t) s).cache t = .absent ∧
    Event.jwtVerify ∈
      (authorize (some t)
        { s with cache := (authorize (some t) s).cache }).trace := by
  have hstep :
      authorize (some t) s =
        ⟨⟨200, .claims v.payload, .untouched⟩, Function.update s.cache t .absent,
          [.blacklistGet, .cacheGet, .cacheDelete]⟩ := by
    unfold authorize
    simp [ht, hb, hc, hsys]
  refine ⟨by rw [hstep], by rw [hstep], by rw [hstep]; simp, ?_, ?_⟩
  · rw [hstep]
    simp
  · rw [hstep]
    unfold authorize
    simp only [ht, hb]
    simp only [Function.update_same]
    rcases hvf : s.jwtVerify t with _ | _ | d <;>
      rcases hck : s.cookieCheck with _ | e <;>
      rcases hso : s.cacheSetOk with _ | _ <;>
      simp [ht, hb, hvf, hck, hso]

/-- Closed instance of sys_cache_hit_one_time: a SYS-prefixed token with a
cached USER-claims value is consumed on the first authorize read. -/
theorem sys_cache_hit_one_time_witness :
    ("SYStok".isEmpty = false ∧ "SYStok".take 3 = "SYS" ∧
      exSysName.blacklist "SYStok" = .absent ∧
      exSysName.cache "SYStok" = .found ⟨⟨.USER, ⟨7, 3⟩⟩, 0, 10⟩) ∧
    ((authorize (some "SYStok") exSysName).resp =
        ⟨200, .claims ⟨.USER, ⟨7, 3⟩⟩, .untouched⟩ ∧
      (authorize (some "SYStok") exSysName).trace =
        [.blacklistGet, .cacheGet, .cacheDelete] ∧
      Event.cookieCheck ∉ (authorize (some "SYStok") exSysName).trace ∧
      (authorize (some "SYStok") exSysName).cache "SYStok" = .absent ∧
      Event.jwtVerify ∈
        (authorize (some "SYStok")
          { exSysName with
              cache := (authorize (some "SYStok") exSysName).cache }).trace) :=
  ⟨by decide,
    sys_cache_hit_one_time "SYStok" (by decide) (by decide) exSysName
      ⟨⟨.USER, ⟨7, 3⟩⟩, 0, 10⟩ (by decide) (by decide)⟩

/-- C9 counterexample: a cache hit whose claims carry the USER access type
(not SYSTEM) but whose token string starts with SYS is returned immediately
with no refresh-cookie linkage check at all (even though the check would
have failed with a 500 here), because the route tests the token-string
prefix rather than the claims. -/
theorem user_claims_sys_name_counterexample :
    (authorize (some "SYStok") exSysName).resp =
      ⟨200, .claims ⟨.USER, ⟨7, 3⟩⟩, .untouched⟩ ∧
    Event.cookieCheck ∉ (authorize (some "SYStok") exSysName).trace := by
  decide

/-- C9 amended: for every authorize cache hit on a token whose first three
characters are not SYS (the route tests the token-string prefix, not the
claims' access type), the refresh-cookie linkage check is performed before
responding, its failure is forwarded, and on success the response body is
the cached payload alone, whose type carries only access_type and
authenticated_user and hence no iat or exp field. -/
theorem non_sys_cache_hit_checks_cookie (t : String) (ht : t.isEmpty = false)
    (hns : ¬ t.take 3 = "SYS") (s : AuthorizeState) (v : CacheVal)
    (hb : s.blacklist t = .absent) (hc : s.cache t = .found v) :
    (authorize (some t) s).trace = [.blacklistGet, .cacheGet, .cookieCheck] ∧
    (s.cookieCheck = none →
      (authorize (some t) s).resp = ⟨200, .claims v.payload, .untouched⟩) ∧
    (∀ e, s.cookieCheck = some e →
      (authorize (some t) s).resp = ⟨e.status, .errorCode e.code, .untouched⟩) := by
  unfold authorize
  rcases hck : s.cookieCheck with _ | e <;> simp [ht, hb, hc, hns, hck]

/-- Closed instance of non_sys_cache_hit_checks_cookie: a cache hit on a
token without the SYS prefix runs the cookie check and returns the payload
without timestamps. -/
theorem non_sys_cache_hit_checks_cookie_witness :
    ("tok".isEmpty = false ∧ ¬ "tok".take 3 = "SYS" ∧
      exSysClaims.blacklist "tok" = .absent ∧
      exSysClaims.cache "tok" = .found ⟨⟨.SYSTEM, ⟨1, 2⟩⟩, 0, 10⟩) ∧
    ((authorize (some "tok") exSysClaims).trace =
        [.blacklistGet, .cacheGet, .cookieCheck] ∧
      (exSysClaims.cookieCheck = none →
        (authorize (some "tok") exSysClaims).resp =
          ⟨200, .claims ⟨.SYSTEM, ⟨1, 2⟩⟩, .untouched⟩) ∧
      (∀ e, exSysClaims.cookieCheck = some e →
        (authorize (some "tok") exSysClaims).resp =
          ⟨e.status, .errorCode e.code, .untouched⟩)) :=
  ⟨by decide,
    non_sys_cache_hit_checks_cookie "tok" (by decide) (by decide) exSysClaims
      ⟨⟨.SYSTEM, ⟨1, 2⟩⟩, 0, 10⟩ (by decide) (by decide)⟩

